import Mathlib

/-!
Verification of the adapter boundary in `adapter_example.py`
(`AgentAPIAdapter` and its validation helpers), via a shallow embedding
of the relevant Python semantics into Lean.

Python values are modelled by the inductive type `PyVal` (None, bool,
int, float, str, list, dict with string keys).  The standard-library
JSON parser (`json.loads`) and the clock (`datetime.now().isoformat()`)
are external to the repository and are passed in as parameters.  The
legacy collaborator is passed in as a function; the repository's
simulated `LegacyAgentAPI` is modelled concretely as well.
-/

/-- Model of a Python value, restricted to the shapes this program uses:
dict keys are strings, floats are modelled as exact rationals (the only
float literal in the adapter is `0.0`, which is exact). -/
inductive PyVal where
  | none : PyVal
  | bool : Bool → PyVal
  | int : Int → PyVal
  | float : Rat → PyVal
  | str : String → PyVal
  | list : List PyVal → PyVal
  | dict : List (String × PyVal) → PyVal

/-- Model of Python `s.strip()`: drop whitespace from both ends.
(Defined over the character list so that it reduces in the kernel.) -/
def strTrim (s : String) : String :=
  String.mk (((s.data.dropWhile Char.isWhitespace).reverse.dropWhile Char.isWhitespace).reverse)

/-- Helper for `s.split("|")`: accumulate the current token (reversed). -/
def splitPipeAux : List Char → List Char → List String
  | [], acc => [String.mk acc.reverse]
  | c :: cs, acc =>
    if c = '|' then String.mk acc.reverse :: splitPipeAux cs []
    else splitPipeAux cs (c :: acc)

/-- Model of Python `s.split("|")` (in particular `"".split("|") == [""]`). -/
def pySplitPipe (s : String) : List String := splitPipeAux s.data []

/-- Python truthiness (`bool(v)`): None/False/0/0.0/empty containers are falsy. -/
def pyTruthy : PyVal → Bool
  | .none => false
  | .bool b => b
  | .int n => n != 0
  | .float q => q != 0
  | .str s => s != ""
  | .list xs => !xs.isEmpty
  | .dict kvs => !kvs.isEmpty

mutual

/-- Python `repr(v)` for the modelled values (str is quoted; containers
recurse).  Only its nonemptiness and its behaviour on the primitive
values that actually occur matter to the claims. -/
def pyRepr : PyVal → String
  | .none => "None"
  | .bool b => if b then "True" else "False"
  | .int n => toString n
  | .float q => toString q.num ++ "." ++ (if q.den = 1 then "0" else toString q.den)
  | .str s => "\x27" ++ s ++ "\x27"
  | .list xs => "[" ++ pyReprListItems xs ++ "]"
  | .dict kvs => "\x7b" ++ pyReprDictItems kvs ++ "\x7d"

def pyReprListItems : List PyVal → String
  | [] => ""
  | [x] => pyRepr x
  | x :: xs => pyRepr x ++ ", " ++ pyReprListItems xs

def pyReprDictItems : List (String × PyVal) → String
  | [] => ""
  | [(k, v)] => "\x27" ++ k ++ "\x27: " ++ pyRepr v
  | (k, v) :: rest => "\x27" ++ k ++ "\x27: " ++ pyRepr v ++ ", " ++ pyReprDictItems rest

end

/-- Python `str(v)`: the string itself for strings, `repr` otherwise. -/
def pyStr : PyVal → String
  | .str s => s
  | v => pyRepr v

/-- Parse a run of decimal digits (helper for `int(str)`). -/
def parseDigits (cs : List Char) : Option Nat :=
  if cs.isEmpty then Option.none
  else if cs.all Char.isDigit then
    some (cs.foldl (fun a c => a * 10 + (c.toNat - 48)) 0)
  else Option.none

/-- Model of Python `int(s)` on a string: strip whitespace, optional
sign, then a nonempty digit run. -/
def pyStrToInt (s : String) : Option Int :=
  match (strTrim s).data with
  | [] => Option.none
  | c :: rest =>
    if c = '-' then (parseDigits rest).map (fun n => -(n : Int))
    else if c = '+' then (parseDigits rest).map (fun n => (n : Int))
    else (parseDigits (c :: rest)).map (fun n => (n : Int))

/-- Truncation of a rational toward zero, as Python `int(float)` does. -/
def ratTrunc (q : Rat) : Int :=
  if q < 0 then -((-q).floor) else q.floor

/-- Model of Python `int(v)` on a value: identity on ints, True/False to
1/0, truncation on floats, string parsing on strings; TypeError
(here: failure) on everything else. -/
def pyInt : PyVal → Option Int
  | .bool b => some (if b then 1 else 0)
  | .int n => some n
  | .float q => some (ratTrunc q)
  | .str s => pyStrToInt s
  | _ => Option.none

/-- `x == 200`-style comparison between a Python value and an integer
(Python numeric cross-type equality; distinct non-numeric types are unequal). -/
def pyEqInt (v : PyVal) (m : Int) : Bool :=
  match v with
  | .int n => n == m
  | .float q => q == (m : Rat)
  | .bool b => (if b then (1 : Int) else 0) == m
  | _ => false

/-- First-match lookup in a dict body (`d.get(k)` when present). -/
def pyGet (kvs : List (String × PyVal)) (k : String) : Option PyVal :=
  kvs.lookup k

/-- `d.get(k)` with Python's `None` default. -/
def pyGetD (kvs : List (String × PyVal)) (k : String) : PyVal :=
  (pyGet kvs k).getD .none

/-! ## Validation and conversion helpers (`AgentAPIAdapter` static methods) -/

/-- `AgentAPIAdapter._require_keys`: raise `ValidationError` listing every
missing key when any required key is absent from the mapping. -/
def require_keys (kvs : List (String × PyVal)) (keys : List String) (ctx : String) :
    Except String Unit :=
  let missing := keys.filter (fun k => (pyGet kvs k).isNone)
  if missing.isEmpty then .ok ()
  else .error ("Missing required keys in " ++ ctx ++ ": [" ++
    String.intercalate ", " (missing.map (fun k => "\x27" ++ k ++ "\x27")) ++ "]")

/-- Is the value a Python bool? (`isinstance(value, bool)`.) -/
def isPyBool : PyVal → Bool
  | .bool _ => true
  | _ => false

/-- `AgentAPIAdapter._coerce_priority`: reject booleans, convert to int
(`ValidationError` when `int(value)` fails), clamp into `[1, 5]`. -/
def coerce_priority (value : PyVal) : Except String Int :=
  if isPyBool value then
    .error "Priority must be an integer 1..5, not boolean"
  else
    match pyInt value with
    | some iv => .ok (max 1 (min 5 iv))
    | Option.none => .error "Priority must be an integer 1..5"

/-- The fixed modern-type-to-legacy-action table in `_coerce_action`,
with the pass-through default (`mapping.get(job_type, job_type)`). -/
def action_lookup (job_type : String) : String :=
  if job_type = "data_processing" then "process_data"
  else if job_type = "classification" then "classify"
  else if job_type = "summarization" then "summarize"
  else if job_type = "ingestion" then "ingest"
  else job_type

/-- `AgentAPIAdapter._coerce_action`: require a non-empty (post-trim)
string, then map through the fixed table with pass-through default. -/
def coerce_action (job_type : PyVal) : Except String String :=
  match job_type with
  | .str s =>
    if strTrim s = "" then .error "job.type must be a non-empty string"
    else .ok (action_lookup s)
  | _ => .error "job.type must be a non-empty string"

/-- `AgentAPIAdapter._normalize_payload`: None becomes an empty dict, a
dict is returned unchanged, a string is trimmed and (when non-empty)
parsed as JSON which must decode to an object; anything else fails.
`json.loads` is standard-library code, passed in as the parameter
`loads` (`Option.none` models `json.JSONDecodeError`). -/
def normalize_payload (loads : String → Option PyVal) (payload : PyVal) :
    Except String PyVal :=
  match payload with
  | .none => .ok (.dict [])
  | .dict kvs => .ok (.dict kvs)
  | .str s =>
    let t := strTrim s
    if t = "" then .ok (.dict [])
    else
      match loads t with
      | Option.none => .error "payload string must be valid JSON object"
      | some parsed =>
        match parsed with
        | .dict kvs => .ok (.dict kvs)
        | _ => .error "payload JSON must decode to an object"
  | _ => .error "payload must be a dict or JSON string"

/-! ## Fallback path (`AgentAPIAdapter.safe_act`) -/

/-- The best-effort job-id extraction at the top of `safe_act`:
`job_id = "unknown"` unless `job` is a dict whose `id` value is truthy
(`job.get("id")` under `if`), in which case `str(job.get("id")).strip()`
is used, falling back to `"unknown"` when that is empty (`or`). -/
def safe_extract_id (job : PyVal) : String :=
  match job with
  | .dict kvs =>
    match pyGet kvs "id" with
    | some v =>
      if pyTruthy v then
        let s := strTrim (pyStr v)
        if s = "" then "unknown" else s
      else "unknown"
    | Option.none => "unknown"
  | _ => "unknown"

/-- `AgentAPIAdapter.safe_act(job, error_msg, created_at)`: a total
fallback responder.  `created_at` keeps the caller-supplied value when
truthy (Python `created_at or datetime.now().isoformat()`), else the
current time `nowCreated`; `completed_at` is the current time `nowDone`. -/
def safe_act (job : PyVal) (error_msg : String) (created_at : Option String)
    (nowCreated nowDone : String) : PyVal :=
  .dict [("success", .bool false),
         ("code", .int 500),
         ("data", .dict [("job_id", .str (safe_extract_id job)),
                         ("result", .str ("Error: " ++ error_msg)),
                         ("metrics", .dict [("duration_ms", .int 0),
                                            ("cpu_usage", .float 0)])]),
         ("created_at", .str (match created_at with
           | some s => if s = "" then nowCreated else s
           | Option.none => nowCreated)),
         ("completed_at", .str nowDone)]

/-! ## `AgentAPIAdapter.run` -/

/-- The body of `run`'s `try` block: each Python `raise`/propagated
exception is an `Except.error` carrying the message; the final modern
dict of the success path is the `Except.ok` value.  `exec_task` is the
legacy collaborator's `execute_task` (it may itself raise);
`nowTs` is the `datetime.now().isoformat()` evaluated while building
the `completed_at` default. -/
def run_attempt (exec_task : String → List (String × PyVal) → Except String PyVal)
    (loads : String → Option PyVal) (created_at nowTs : String) (job : PyVal) :
    Except String PyVal :=
  match job with
  | .dict kvs =>
    match require_keys kvs ["id", "type", "priority"] "job" with
    | .error e => .error e
    | .ok _ =>
      -- Python local `job_id = str(job["id"]).strip()` is written out at
      -- each of its three uses below (it is a pure expression).
      if strTrim (pyStr (pyGetD kvs "id")) = "" then
        .error "job.id must be a non-empty string"
      else
        match coerce_action (pyGetD kvs "type") with
        | .error e => .error e
        | .ok action =>
          match coerce_priority (pyGetD kvs "priority") with
          | .error e => .error e
          | .ok priority =>
            match normalize_payload loads (pyGetD kvs "payload") with
            | .error e => .error e
            | .ok payload =>
              match exec_task (strTrim (pyStr (pyGetD kvs "id")))
                              [("action", .str action),
                               ("priority", .int priority),
                               ("data", payload)] with
              | .error e => .error e
              | .ok legacy_resp =>
                match legacy_resp with
                | .dict resp_kvs =>
                  -- Python locals `rc = legacy_resp.get("result_code", 500)`
                  -- and `success = rc == 200` are likewise inlined.
                  match pyInt ((pyGet resp_kvs "result_code").getD (.int 500)) with
                  | Option.none => .error "invalid literal for int()"
                  | some code =>
                    .ok (.dict [("success",
                                  .bool (pyEqInt ((pyGet resp_kvs "result_code").getD (.int 500)) 200)),
                                ("code", .int code),
                                ("data", .dict [("job_id", .str (strTrim (pyStr (pyGetD kvs "id")))),
                                                ("result", pyGetD resp_kvs "output"),
                                                ("metrics", .dict [("duration_ms", .int 0),
                                                                   ("cpu_usage", .float 0)])]),
                                ("created_at", .str created_at),
                                ("completed_at",
                                  (pyGet resp_kvs "timestamp").getD (.str nowTs))])
                | _ => .error "AttributeError: no attribute get"
  | _ => .error "job must be a dictionary"

/-- `AgentAPIAdapter.run(job)`: `created_at` is captured at call entry;
any `ValidationError` or other exception inside the `try` block is
caught and delegated to `safe_act(job, str(e), created_at)`. -/
def run (exec_task : String → List (String × PyVal) → Except String PyVal)
    (loads : String → Option PyVal) (created_at nowTs nowSafeC nowSafeD : String)
    (job : PyVal) : PyVal :=
  match run_attempt exec_task loads created_at nowTs job with
  | .ok resp => resp
  | .error msg => safe_act job msg (some created_at) nowSafeC nowSafeD

/-! ## `AgentAPIAdapter.query_status` -/

/-- The inline error response that `query_status` builds on its two
`except` branches (400 for validation, 500 for unexpected); note it
echoes the raw `job_id` argument, whatever its type. -/
def status_error_response (job_id : PyVal) (code : Int) (msg : String)
    (created_at nowDone : String) : PyVal :=
  .dict [("success", .bool false),
         ("code", .int code),
         ("data", .dict [("job_id", job_id),
                         ("status", .str "UNKNOWN"),
                         ("error", .str msg)]),
         ("created_at", .str created_at),
         ("completed_at", .str nowDone)]

/-- The status token list `query_status` builds from the legacy string:
`[s.strip() for s in str(x).split("|") if s.strip()]`. -/
def status_options (v : PyVal) : List String :=
  ((pySplitPipe (pyStr v)).map strTrim).filter (fun t => t ≠ "")

/-- The fixed-precedence resolution loop in `query_status`:
COMPLETED > RUNNING > FAILED > UNKNOWN, by membership. -/
def resolve_status (options : List String) : String :=
  if options.contains "COMPLETED" then "COMPLETED"
  else if options.contains "RUNNING" then "RUNNING"
  else if options.contains "FAILED" then "FAILED"
  else "UNKNOWN"

/-- `AgentAPIAdapter.query_status(job_id)`: validate the id, fetch the
pipe-delimited legacy status (`get_status` may raise), resolve by
precedence and translate to the modern shape.  Validation failures and
collaborator failures build their own inline responses (400 / 500). -/
def query_status (get_status : String → Except String PyVal)
    (created_at nowDone : String) (job_id : PyVal) : PyVal :=
  match job_id with
  | .str s =>
    if strTrim s = "" then
      status_error_response job_id 400 "job_id must be a non-empty string" created_at nowDone
    else
      match get_status (strTrim s) with
      | .error e => status_error_response job_id 500 e created_at nowDone
      | .ok legacy_status_pipe =>
        let options := status_options legacy_status_pipe
        let status := resolve_status options
        let success := status == "COMPLETED"
        let code : Int := if success then 200
          else if status == "RUNNING" || status == "UNKNOWN" then 206 else 500
        .dict [("success", .bool success),
               ("code", .int code),
               ("data", .dict [("job_id", job_id),
                               ("status", .str status)]),
               ("created_at", .str created_at),
               ("completed_at", .str nowDone)]
  | _ =>
    status_error_response job_id 400 "job_id must be a non-empty string" created_at nowDone

/-! ## The simulated legacy collaborator (`LegacyAgentAPI`) -/

/-- `LegacyAgentAPI.execute_task`: always succeeds with a fixed-shape
dict; `now` is the `datetime.now().isoformat()` it embeds. -/
def legacy_execute_task (now : String) (task_id : String)
    (params : List (String × PyVal)) : Except String PyVal :=
  .ok (.dict [("status", .str "completed"),
              ("result_code", .int 200),
              ("output", .str ("Task " ++ task_id ++ " executed with action " ++
                               pyStr (pyGetD params "action"))),
              ("timestamp", .str now)])

/-- `LegacyAgentAPI.get_status`: always returns the synthetic mix. -/
def legacy_get_status (_task_id : String) : Except String PyVal :=
  .ok (.str "RUNNING|COMPLETED|FAILED")

/-! ## The modern response-shape invariant -/

/-- A dict with exactly the keys `success` (bool), `code` (int), `data`
(dict), `created_at` (str), `completed_at` (str), in the order every
construction site in the adapter uses. -/
def isModernResponse : PyVal → Bool
  | .dict [("success", .bool _), ("code", .int _), ("data", .dict _),
           ("created_at", .str _), ("completed_at", .str _)] => true
  | _ => false

/-- Field access on a modern response (`r[k]`, `None` when absent). -/
def getField (r : PyVal) (k : String) : PyVal :=
  match r with
  | .dict kvs => pyGetD kvs k
  | _ => .none

/-- A fixed conforming collaborator used to exercise concrete scenarios
(the spec's scenario A): every task returns `result_code=200`,
`output="ok"`, `timestamp="T2"`. -/
def scenario_exec : String → List (String × PyVal) → Except String PyVal :=
  fun _ _ => .ok (.dict [("result_code", .int 200), ("output", .str "ok"),
                         ("timestamp", .str "T2")])

/-! ## Shape lemmas: every exit of the adapter is modern-shaped -/

/-- `safe_act` builds the modern shape unconditionally. -/
theorem safe_act_shape (job : PyVal) (msg : String) (copt : Option String) (n1 n2 : String) :
    isModernResponse (safe_act job msg copt n1 n2) = true := rfl

/-- Every exit of `query_status` is modern-shaped, for any collaborator. -/
theorem query_status_shape (gs : String → Except String PyVal) (cA tB : String) (jid : PyVal) :
    isModernResponse (query_status gs cA tB jid) = true := by
  cases jid <;> simp only [query_status] <;> try rfl
  case str s =>
    by_cases h : strTrim s = ""
    · simp [h]; rfl
    · simp only [h, if_false]
      cases hgs : gs (strTrim s) <;> rfl

/-- A successful pass through `run`'s `try` block yields the modern
shape, provided the collaborator only ever stores strings under
`timestamp` (the `completed_at` slot echoes that stored value). -/
theorem run_attempt_ok_shape
    (exec_task : String → List (String × PyVal) → Except String PyVal)
    (loads : String → Option PyVal) (cA tN : String) (job r : PyVal)
    (hts : ∀ i p rk v, exec_task i p = Except.ok (.dict rk) →
        pyGet rk "timestamp" = some v → ∃ s, v = PyVal.str s)
    (h : run_attempt exec_task loads cA tN job = .ok r) :
    isModernResponse r = true := by
  unfold run_attempt at h
  split at h <;> try exact Except.noConfusion h
  next kvs =>
  split at h <;> try exact Except.noConfusion h
  next u hreq =>
  split at h <;> try exact Except.noConfusion h
  next hid =>
  split at h <;> try exact Except.noConfusion h
  next action hact =>
  split at h <;> try exact Except.noConfusion h
  next priority hpri =>
  split at h <;> try exact Except.noConfusion h
  next payload hpay =>
  split at h <;> try exact Except.noConfusion h
  next legacy_resp hexec =>
  split at h <;> try exact Except.noConfusion h
  next resp_kvs =>
  split at h <;> try exact Except.noConfusion h
  next code hcode =>
  injection h with h2
  subst h2
  cases hl : pyGet resp_kvs "timestamp" with
  | none => simp [isModernResponse, hl]
  | some v =>
    obtain ⟨s, rfl⟩ := hts _ _ _ _ hexec hl
    simp [isModernResponse, hl]

/-- The simulated `LegacyAgentAPI.execute_task` stores a string under
`timestamp`. -/
theorem legacy_execute_task_ts (tN i : String) (p : List (String × PyVal))
    (rk : List (String × PyVal)) (v : PyVal)
    (hok : legacy_execute_task tN i p = Except.ok (.dict rk))
    (hl : pyGet rk "timestamp" = some v) : ∃ s, v = PyVal.str s := by
  unfold legacy_execute_task at hok
  injection hok with hok2
  injection hok2 with hok3
  subst hok3
  simp [pyGet, List.lookup] at hl
  exact ⟨tN, hl.symm⟩

/-- `run` is modern-shaped on every input, for any collaborator whose
`timestamp` values are strings. -/
theorem run_shape
    (exec_task : String → List (String × PyVal) → Except String PyVal)
    (loads : String → Option PyVal) (cA tN sC sD : String) (job : PyVal)
    (hts : ∀ i p rk v, exec_task i p = Except.ok (.dict rk) →
        pyGet rk "timestamp" = some v → ∃ s, v = PyVal.str s) :
    isModernResponse (run exec_task loads cA tN sC sD job) = true := by
  unfold run
  cases h : run_attempt exec_task loads cA tN job with
  | ok r => exact run_attempt_ok_shape exec_task loads cA tN job r hts h
  | error msg => exact safe_act_shape job msg (some cA) sC sD

/-! ## Claim theorems -/

/-- C1: for every input value passed to `run`, `query_status`, or
`safe_act` (including non-mapping jobs, None, wrong-typed or empty
jobId strings, and empty mappings), the call never raises (all failure
paths are values here) and returns a mapping with exactly the keys
`success` (boolean), `code` (integer), `data` (mapping), `created_at`
(string) and `completed_at` (string). -/
theorem claim_C1_totality (loads : String → Option PyVal)
    (gs : String → Except String PyVal)
    (tN cA tB sC sD : String) (job jid : PyVal) (msg : String) (copt : Option String) :
    isModernResponse (run (legacy_execute_task tN) loads cA tB sC sD job) = true ∧
    isModernResponse (query_status gs cA tB jid) = true ∧
    isModernResponse (safe_act job msg copt sC sD) = true :=
  ⟨run_shape (legacy_execute_task tN) loads cA tB sC sD job
      (fun i p rk v h1 h2 => legacy_execute_task_ts tN i p rk v h1 h2),
   query_status_shape gs cA tB jid,
   safe_act_shape job msg copt sC sD⟩

/-- C2: when `run`'s validation succeeds and the collaborator returns a
result, the response has `success = (result_code == 200)`, `code` the
integer `result_code` (500 when absent, via the `get` default),
`data.job_id` the trimmed id, `data.result` the legacy output,
zero-valued metrics, `created_at` from call entry, and `completed_at`
the legacy timestamp when present, else the current time. -/
theorem claim_C2_translation
    (exec_task : String → List (String × PyVal) → Except String PyVal)
    (loads : String → Option PyVal) (cA tB sC sD : String)
    (kvs rkvs pl : List (String × PyVal)) (idv tv pv : PyVal)
    (a : String) (p rc : Int)
    (hid : pyGet kvs "id" = some idv)
    (hty : pyGet kvs "type" = some tv)
    (hpr : pyGet kvs "priority" = some pv)
    (hjid : strTrim (pyStr idv) ≠ "")
    (ha : coerce_action tv = .ok a)
    (hp : coerce_priority pv = .ok p)
    (hpl : normalize_payload loads (pyGetD kvs "payload") = .ok (.dict pl))
    (hex : exec_task (strTrim (pyStr idv))
        [("action", .str a), ("priority", .int p), ("data", .dict pl)] =
        .ok (.dict rkvs))
    (hrc : (pyGet rkvs "result_code").getD (.int 500) = .int rc) :
    run exec_task loads cA tB sC sD (.dict kvs) =
      .dict [("success", .bool (rc == 200)),
             ("code", .int rc),
             ("data", .dict [("job_id", .str (strTrim (pyStr idv))),
                             ("result", pyGetD rkvs "output"),
                             ("metrics", .dict [("duration_ms", .int 0),
                                                ("cpu_usage", .float 0)])]),
             ("created_at", .str cA),
             ("completed_at", (pyGet rkvs "timestamp").getD (.str tB))] := by
  have hreq : require_keys kvs ["id", "type", "priority"] "job" = .ok () := by
    simp [require_keys, List.filter, hid, hty, hpr]
  have hgid : pyGetD kvs "id" = idv := by simp [pyGetD, hid]
  have hgty : pyGetD kvs "type" = tv := by simp [pyGetD, hty]
  have hgpr : pyGetD kvs "priority" = pv := by simp [pyGetD, hpr]
  unfold run run_attempt
  simp only [hreq, hgid, hgty, hgpr, if_neg hjid, ha, hp, hpl, hex, hrc, pyInt, pyEqInt]

/-- Witness for C2: spec scenario A, `run({"id":"job1",
"type":"classification","priority":3,"payload":{}})` against a
collaborator answering `result_code=200, output="ok"`. -/
theorem claim_C2_translation_witness :
    run scenario_exec (fun _ => Option.none) "T0" "T1" "TC" "TD"
      (.dict [("id", .str "job1"), ("type", .str "classification"),
              ("priority", .int 3), ("payload", .dict [])]) =
      .dict [("success", .bool true),
             ("code", .int 200),
             ("data", .dict [("job_id", .str "job1"), ("result", .str "ok"),
                             ("metrics", .dict [("duration_ms", .int 0),
                                                ("cpu_usage", .float 0)])]),
             ("created_at", .str "T0"),
             ("completed_at", .str "T2")] :=
  claim_C2_translation scenario_exec (fun _ => Option.none) "T0" "T1" "TC" "TD"
    [("id", .str "job1"), ("type", .str "classification"),
     ("priority", .int 3), ("payload", .dict [])]
    [("result_code", .int 200), ("output", .str "ok"), ("timestamp", .str "T2")]
    [] (.str "job1") (.str "classification") (.int 3) "classify" 3 200
    rfl rfl rfl (by decide) rfl rfl rfl rfl rfl

/-- C3: every failure inside `run` is caught and answered by a call to
`safe_act` with the entry `created_at`; the fallback response has
`success=false`, `code=500`, `data.result = "Error: " + message`,
zero-valued metrics, and `data.job_id` the trimmed extracted id when
extraction succeeds and is non-empty, else `"unknown"`; no exception is
re-raised (the error value is consumed, never returned). -/
theorem claim_C3_fallback
    (exec_task : String → List (String × PyVal) → Except String PyVal)
    (loads : String → Option PyVal) (cA tB sC sD : String) (job : PyVal) (msg : String)
    (h : run_attempt exec_task loads cA tB job = .error msg) :
    run exec_task loads cA tB sC sD job = safe_act job msg (some cA) sC sD ∧
    safe_act job msg (some cA) sC sD =
      .dict [("success", .bool false),
             ("code", .int 500),
             ("data", .dict [("job_id", .str (safe_extract_id job)),
                             ("result", .str ("Error: " ++ msg)),
                             ("metrics", .dict [("duration_ms", .int 0),
                                                ("cpu_usage", .float 0)])]),
             ("created_at", .str (if cA = "" then sC else cA)),
             ("completed_at", .str sD)] ∧
    (safe_extract_id job = "unknown" ∨
      (∃ kvs v, job = PyVal.dict kvs ∧ pyGet kvs "id" = some v ∧ pyTruthy v = true ∧
        strTrim (pyStr v) ≠ "" ∧ safe_extract_id job = strTrim (pyStr v))) := by
  refine ⟨by unfold run; rw [h], rfl, ?_⟩
  cases job with
  | dict kvs =>
    cases hv : pyGet kvs "id" with
    | none => exact Or.inl (by simp [safe_extract_id, hv])
    | some v =>
      by_cases ht : pyTruthy v
      · by_cases hs : strTrim (pyStr v) = ""
        · exact Or.inl (by simp [safe_extract_id, hv, ht, hs])
        · exact Or.inr ⟨kvs, v, rfl, hv, ht, hs, by simp [safe_extract_id, hv, ht, hs]⟩
      · exact Or.inl (by simp [safe_extract_id, hv]; simp_all)
  | none => exact Or.inl rfl
  | bool b => exact Or.inl rfl
  | int n => exact Or.inl rfl
  | float q => exact Or.inl rfl
  | str s => exact Or.inl rfl
  | list xs => exact Or.inl rfl

/-- Witness for C3: a non-mapping job (`5`) fails validation inside
`run` and is answered through `safe_act` with `job_id "unknown"`. -/
theorem claim_C3_fallback_witness :
    run scenario_exec (fun _ => Option.none) "T0" "T1" "TC" "TD" (.int 5) =
        safe_act (.int 5) "job must be a dictionary" (some "T0") "TC" "TD" ∧
    safe_act (.int 5) "job must be a dictionary" (some "T0") "TC" "TD" =
      .dict [("success", .bool false),
             ("code", .int 500),
             ("data", .dict [("job_id", .str (safe_extract_id (.int 5))),
                             ("result", .str ("Error: " ++ "job must be a dictionary")),
                             ("metrics", .dict [("duration_ms", .int 0),
                                                ("cpu_usage", .float 0)])]),
             ("created_at", .str (if "T0" = "" then "TC" else "T0")),
             ("completed_at", .str "TD")] ∧
    (safe_extract_id (.int 5) = "unknown" ∨
      (∃ kvs v, PyVal.int 5 = PyVal.dict kvs ∧ pyGet kvs "id" = some v ∧ pyTruthy v = true ∧
        strTrim (pyStr v) ≠ "" ∧ safe_extract_id (.int 5) = strTrim (pyStr v))) :=
  claim_C3_fallback scenario_exec (fun _ => Option.none) "T0" "T1" "TC" "TD"
    (.int 5) "job must be a dictionary" rfl

/-- C4: for every pipe-delimited status value returned by the
collaborator, `query_status` splits on `|`, trims, drops empties
(`status_options`), resolves by the fixed precedence COMPLETED >
RUNNING > FAILED > UNKNOWN regardless of token order (membership-based,
hence permutation-invariant), and sets `success = (status ==
"COMPLETED")` with code 200 for COMPLETED, 206 for RUNNING or UNKNOWN,
500 for FAILED. -/
theorem claim_C4_status_precedence
    (gs : String → Except String PyVal) (cA tB s : String) (st : PyVal)
    (hv : strTrim s ≠ "") (hgs : gs (strTrim s) = .ok st) :
    query_status gs cA tB (.str s) =
      .dict [("success", .bool (resolve_status (status_options st) == "COMPLETED")),
             ("code", .int (if resolve_status (status_options st) == "COMPLETED" then 200
               else if resolve_status (status_options st) == "RUNNING" ||
                       resolve_status (status_options st) == "UNKNOWN" then 206 else 500)),
             ("data", .dict [("job_id", .str s),
                             ("status", .str (resolve_status (status_options st)))]),
             ("created_at", .str cA), ("completed_at", .str tB)] ∧
    (∀ l : List String, resolve_status l = "COMPLETED" ↔ l.contains "COMPLETED" = true) ∧
    (∀ l : List String, resolve_status l = "RUNNING" ↔
      l.contains "COMPLETED" = false ∧ l.contains "RUNNING" = true) ∧
    (∀ l : List String, resolve_status l = "FAILED" ↔
      l.contains "COMPLETED" = false ∧ l.contains "RUNNING" = false ∧
      l.contains "FAILED" = true) ∧
    (∀ l : List String, resolve_status l = "UNKNOWN" ↔
      l.contains "COMPLETED" = false ∧ l.contains "RUNNING" = false ∧
      l.contains "FAILED" = false) ∧
    (∀ l₁ l₂ : List String, l₁.Perm l₂ → resolve_status l₁ = resolve_status l₂) := by
  refine ⟨?_, ?_, ?_, ?_, ?_, ?_⟩
  · simp only [query_status, if_neg hv, hgs]
  · intro l
    unfold resolve_status
    by_cases hC : "COMPLETED" ∈ l <;> by_cases hR : "RUNNING" ∈ l <;>
      by_cases hF : "FAILED" ∈ l <;> simp [hC, hR, hF]
  · intro l
    unfold resolve_status
    by_cases hC : "COMPLETED" ∈ l <;> by_cases hR : "RUNNING" ∈ l <;>
      by_cases hF : "FAILED" ∈ l <;> simp [hC, hR, hF]
  · intro l
    unfold resolve_status
    by_cases hC : "COMPLETED" ∈ l <;> by_cases hR : "RUNNING" ∈ l <;>
      by_cases hF : "FAILED" ∈ l <;> simp [hC, hR, hF]
  · intro l
    unfold resolve_status
    by_cases hC : "COMPLETED" ∈ l <;> by_cases hR : "RUNNING" ∈ l <;>
      by_cases hF : "FAILED" ∈ l <;> simp [hC, hR, hF]
  · intro l₁ l₂ hperm
    unfold resolve_status
    simp [hperm.mem_iff]

/-- Witness for C4: the spec's test `"FAILED|RUNNING"` (no COMPLETED)
resolves RUNNING with code 206. -/
theorem claim_C4_status_precedence_witness :
    query_status (fun _ => .ok (.str "FAILED|RUNNING")) "T0" "T1" (.str "job1") =
      .dict [("success", .bool false), ("code", .int 206),
             ("data", .dict [("job_id", .str "job1"), ("status", .str "RUNNING")]),
             ("created_at", .str "T0"), ("completed_at", .str "T1")] ∧
    (∀ l : List String, resolve_status l = "COMPLETED" ↔ l.contains "COMPLETED" = true) ∧
    (∀ l : List String, resolve_status l = "RUNNING" ↔
      l.contains "COMPLETED" = false ∧ l.contains "RUNNING" = true) ∧
    (∀ l : List String, resolve_status l = "FAILED" ↔
      l.contains "COMPLETED" = false ∧ l.contains "RUNNING" = false ∧
      l.contains "FAILED" = true) ∧
    (∀ l : List String, resolve_status l = "UNKNOWN" ↔
      l.contains "COMPLETED" = false ∧ l.contains "RUNNING" = false ∧
      l.contains "FAILED" = false) ∧
    (∀ l₁ l₂ : List String, l₁.Perm l₂ → resolve_status l₁ = resolve_status l₂) :=
  claim_C4_status_precedence (fun _ => .ok (.str "FAILED|RUNNING")) "T0" "T1" "job1"
    (.str "FAILED|RUNNING") (by decide) rfl

/-- C5: when `jobId` is not a string or trims to empty, `query_status`
returns — without consulting the collaborator (the answer does not
depend on `gs`) and without `safe_act`'s result/metrics shape — an
inline response with `success=false`, `code=400`, `data.status =
"UNKNOWN"` and `data.error` the validation message; an unexpected
failure after validation produces the same inline shape with code 500
and the failure message. -/
theorem claim_C5_inline_errors
    (gs : String → Except String PyVal) (cA tB : String) :
    (∀ jid : PyVal, (∀ s, jid ≠ PyVal.str s) →
      query_status gs cA tB jid =
        .dict [("success", .bool false), ("code", .int 400),
               ("data", .dict [("job_id", jid), ("status", .str "UNKNOWN"),
                               ("error", .str "job_id must be a non-empty string")]),
               ("created_at", .str cA), ("completed_at", .str tB)]) ∧
    (∀ s : String, strTrim s = "" →
      query_status gs cA tB (.str s) =
        .dict [("success", .bool false), ("code", .int 400),
               ("data", .dict [("job_id", .str s), ("status", .str "UNKNOWN"),
                               ("error", .str "job_id must be a non-empty string")]),
               ("created_at", .str cA), ("completed_at", .str tB)]) ∧
    (∀ (s e : String), strTrim s ≠ "" → gs (strTrim s) = .error e →
      query_status gs cA tB (.str s) =
        .dict [("success", .bool false), ("code", .int 500),
               ("data", .dict [("job_id", .str s), ("status", .str "UNKNOWN"),
                               ("error", .str e)]),
               ("created_at", .str cA), ("completed_at", .str tB)]) := by
  refine ⟨?_, ?_, ?_⟩
  · intro jid hns
    cases jid with
    | str s => exact absurd rfl (hns s)
    | none => rfl
    | bool b => rfl
    | int n => rfl
    | float q => rfl
    | list xs => rfl
    | dict kvs => rfl
  · intro s hs
    simp [query_status, hs, status_error_response]
  · intro s e hs hgs
    simp [query_status, if_neg hs, hgs, status_error_response]

/-- Witness for C5: a non-string id (400), a blank id (400), and a
raising collaborator (500). -/
theorem claim_C5_inline_errors_witness :
    query_status (fun _ => .error "boom") "T0" "T1" (.int 3) =
      .dict [("success", .bool false), ("code", .int 400),
             ("data", .dict [("job_id", .int 3), ("status", .str "UNKNOWN"),
                             ("error", .str "job_id must be a non-empty string")]),
             ("created_at", .str "T0"), ("completed_at", .str "T1")] ∧
    query_status (fun _ => .error "boom") "T0" "T1" (.str "  ") =
      .dict [("success", .bool false), ("code", .int 400),
             ("data", .dict [("job_id", .str "  "), ("status", .str "UNKNOWN"),
                             ("error", .str "job_id must be a non-empty string")]),
             ("created_at", .str "T0"), ("completed_at", .str "T1")] ∧
    query_status (fun _ => .error "boom") "T0" "T1" (.str "job1") =
      .dict [("success", .bool false), ("code", .int 500),
             ("data", .dict [("job_id", .str "job1"), ("status", .str "UNKNOWN"),
                             ("error", .str "boom")]),
             ("created_at", .str "T0"), ("completed_at", .str "T1")] :=
  ⟨(claim_C5_inline_errors (fun _ => .error "boom") "T0" "T1").1 (.int 3)
      (fun s hs => PyVal.noConfusion hs),
   (claim_C5_inline_errors (fun _ => .error "boom") "T0" "T1").2.1 "  " (by decide),
   (claim_C5_inline_errors (fun _ => .error "boom") "T0" "T1").2.2 "job1" "boom"
      (by decide) rfl⟩

/-- C6: `_coerce_priority` fails for every boolean and for every value
`int()` cannot convert; otherwise it clamps the integer into `[1, 5]`
(so results are always in range); in particular `0 ↦ 1`, `99 ↦ 5`,
`"3" ↦ 3`, and `True` fails. -/
theorem claim_C6_priority :
    (∀ b, coerce_priority (.bool b) = .error "Priority must be an integer 1..5, not boolean") ∧
    (∀ v, isPyBool v = false → pyInt v = Option.none →
      coerce_priority v = .error "Priority must be an integer 1..5") ∧
    (∀ v n, isPyBool v = false → pyInt v = some n →
      coerce_priority v = .ok (max 1 (min 5 n))) ∧
    (∀ v n, coerce_priority v = .ok n → 1 ≤ n ∧ n ≤ 5) ∧
    coerce_priority (.int 0) = .ok 1 ∧
    coerce_priority (.int 99) = .ok 5 ∧
    coerce_priority (.str "3") = .ok 3 ∧
    coerce_priority (.bool true) = .error "Priority must be an integer 1..5, not boolean" := by
  refine ⟨fun b => rfl, ?_, ?_, ?_, rfl, rfl, rfl, rfl⟩
  · intro v hb hn
    simp [coerce_priority, hb, hn]
  · intro v n hb hn
    simp [coerce_priority, hb, hn]
  · intro v n h
    unfold coerce_priority at h
    split at h
    · exact Except.noConfusion h
    · cases hv : pyInt v with
      | none => rw [hv] at h; exact Except.noConfusion h
      | some iv =>
        rw [hv] at h
        injection h with h2
        omega

/-- Witness for C6: clamping `7 ↦ 5`, a non-convertible string fails,
and the in-range bound instantiated at `"3" ↦ 3`. -/
theorem claim_C6_priority_witness :
    coerce_priority (.int 7) = .ok 5 ∧
    coerce_priority (.str "abc") = .error "Priority must be an integer 1..5" ∧
    (1 ≤ (3 : Int) ∧ (3 : Int) ≤ 5) :=
  ⟨claim_C6_priority.2.2.1 (.int 7) 7 rfl rfl,
   claim_C6_priority.2.1 (.str "abc") rfl rfl,
   claim_C6_priority.2.2.2.1 (.str "3") 3 rfl⟩

/-- C7: `_coerce_action` fails exactly on non-strings and on strings
that trim to empty; it maps the four table entries and passes every
other string through unchanged. -/
theorem claim_C7_action :
    (∀ v : PyVal, (∀ s, v ≠ PyVal.str s) →
      coerce_action v = .error "job.type must be a non-empty string") ∧
    (∀ s, strTrim s = "" →
      coerce_action (.str s) = .error "job.type must be a non-empty string") ∧
    coerce_action (.str "data_processing") = .ok "process_data" ∧
    coerce_action (.str "classification") = .ok "classify" ∧
    coerce_action (.str "summarization") = .ok "summarize" ∧
    coerce_action (.str "ingestion") = .ok "ingest" ∧
    (∀ s, strTrim s ≠ "" → s ≠ "data_processing" → s ≠ "classification" →
      s ≠ "summarization" → s ≠ "ingestion" → coerce_action (.str s) = .ok s) := by
  refine ⟨?_, ?_, rfl, rfl, rfl, rfl, ?_⟩
  · intro v hns
    cases v with
    | str s => exact absurd rfl (hns s)
    | none => rfl
    | bool b => rfl
    | int n => rfl
    | float q => rfl
    | list xs => rfl
    | dict kvs => rfl
  · intro s hs
    simp [coerce_action, hs]
  · intro s hs h1 h2 h3 h4
    simp [coerce_action, if_neg hs, action_lookup, h1, h2, h3, h4]

/-- Witness for C7: pass-through of `"unknown_type"`, failure on `None`
and on the empty string. -/
theorem claim_C7_action_witness :
    coerce_action (.str "unknown_type") = .ok "unknown_type" ∧
    coerce_action PyVal.none = .error "job.type must be a non-empty string" ∧
    coerce_action (.str "") = .error "job.type must be a non-empty string" :=
  ⟨claim_C7_action.2.2.2.2.2.2 "unknown_type" (by decide) (by decide) (by decide)
      (by decide) (by decide),
   claim_C7_action.1 PyVal.none (fun s hs => PyVal.noConfusion hs),
   claim_C7_action.2.1 "" rfl⟩

/-- C8: `_normalize_payload` returns an empty mapping for None and for
blank strings, returns mappings unchanged, parses other strings as JSON
and keeps the result only when it decodes to an object, and fails with
`ValidationError` on malformed JSON, on JSON decoding to a non-object,
and on every other input type. -/
theorem claim_C8_payload (loads : String → Option PyVal) :
    normalize_payload loads .none = .ok (.dict []) ∧
    (∀ kvs, normalize_payload loads (.dict kvs) = .ok (.dict kvs)) ∧
    (∀ s, strTrim s = "" → normalize_payload loads (.str s) = .ok (.dict [])) ∧
    (∀ s, strTrim s ≠ "" → loads (strTrim s) = Option.none →
      normalize_payload loads (.str s) = .error "payload string must be valid JSON object") ∧
    (∀ s kvs, strTrim s ≠ "" → loads (strTrim s) = some (.dict kvs) →
      normalize_payload loads (.str s) = .ok (.dict kvs)) ∧
    (∀ s v, strTrim s ≠ "" → loads (strTrim s) = some v → (∀ kvs, v ≠ PyVal.dict kvs) →
      normalize_payload loads (.str s) = .error "payload JSON must decode to an object") ∧
    (∀ v : PyVal, v ≠ PyVal.none → (∀ kvs, v ≠ PyVal.dict kvs) → (∀ s, v ≠ PyVal.str s) →
      normalize_payload loads v = .error "payload must be a dict or JSON string") := by
  refine ⟨rfl, fun kvs => rfl, ?_, ?_, ?_, ?_, ?_⟩
  · intro s hs
    simp [normalize_payload, hs]
  · intro s hs hl
    simp [normalize_payload, if_neg hs, hl]
  · intro s kvs hs hl
    simp [normalize_payload, if_neg hs, hl]
  · intro s v hs hl hnd
    cases v with
    | dict kvs => exact absurd rfl (hnd kvs)
    | none => simp [normalize_payload, if_neg hs, hl]
    | bool b => simp [normalize_payload, if_neg hs, hl]
    | int n => simp [normalize_payload, if_neg hs, hl]
    | float q => simp [normalize_payload, if_neg hs, hl]
    | str t => simp [normalize_payload, if_neg hs, hl]
    | list xs => simp [normalize_payload, if_neg hs, hl]
  · intro v hn hd hstr
    cases v with
    | none => exact absurd rfl hn
    | dict kvs => exact absurd rfl (hd kvs)
    | str s => exact absurd rfl (hstr s)
    | bool b => rfl
    | int n => rfl
    | float q => rfl
    | list xs => rfl

/-- Witness for C8: an object-decoding parse is kept, a parse failure
and a non-object decode fail, and a non-dict non-string payload fails. -/
theorem claim_C8_payload_witness :
    normalize_payload (fun _ => some (.dict [("a", .int 1)])) (.str "p") =
      .ok (.dict [("a", .int 1)]) ∧
    normalize_payload (fun _ => Option.none) (.str "p") =
      .error "payload string must be valid JSON object" ∧
    normalize_payload (fun _ => some (.list [.int 1, .int 2])) (.str "p") =
      .error "payload JSON must decode to an object" ∧
    normalize_payload (fun _ => Option.none) (.int 123) =
      .error "payload must be a dict or JSON string" :=
  ⟨(claim_C8_payload (fun _ => some (.dict [("a", .int 1)]))).2.2.2.2.1 "p"
      [("a", .int 1)] (by decide) rfl,
   (claim_C8_payload (fun _ => Option.none)).2.2.2.1 "p" (by decide) rfl,
   (claim_C8_payload (fun _ => some (.list [.int 1, .int 2]))).2.2.2.2.2.1 "p"
      (.list [.int 1, .int 2]) (by decide) rfl (fun kvs h => PyVal.noConfusion h),
   (claim_C8_payload (fun _ => Option.none)).2.2.2.2.2.2 (.int 123)
      (fun h => PyVal.noConfusion h) (fun kvs h => PyVal.noConfusion h)
      (fun s h => PyVal.noConfusion h)⟩

/-- C9: `run` does not require the job id to be a string — it applies
`str()` before trimming, so any mapping with the three required keys
fails on the id only when the stringified, trimmed value is empty; in
particular the integer id `123` passes validation and is used as
`job_id "123"`. -/
theorem claim_C9_id_stringified
    (exec_task : String → List (String × PyVal) → Except String PyVal)
    (loads : String → Option PyVal) (cA tB : String)
    (kvs : List (String × PyVal)) (idv tv pv : PyVal)
    (hid : pyGet kvs "id" = some idv)
    (hty : pyGet kvs "type" = some tv)
    (hpr : pyGet kvs "priority" = some pv) :
    (strTrim (pyStr idv) = "" →
      run_attempt exec_task loads cA tB (.dict kvs) =
        .error "job.id must be a non-empty string") ∧
    (∀ tN sC sD, run (legacy_execute_task tN) loads cA tB sC sD
        (.dict [("id", .int 123), ("type", .str "classification"), ("priority", .int 3)]) =
      .dict [("success", .bool true), ("code", .int 200),
             ("data", .dict [("job_id", .str "123"),
                             ("result", .str "Task 123 executed with action classify"),
                             ("metrics", .dict [("duration_ms", .int 0),
                                                ("cpu_usage", .float 0)])]),
             ("created_at", .str cA), ("completed_at", .str tN)]) := by
  constructor
  · intro h
    have hreq : require_keys kvs ["id", "type", "priority"] "job" = .ok () := by
      simp [require_keys, List.filter, hid, hty, hpr]
    have hgid : pyGetD kvs "id" = idv := by simp [pyGetD, hid]
    unfold run_attempt
    simp only [hreq, hgid, if_pos h]
  · intro tN sC sD
    rfl

/-- Witness for C9: a whitespace-only id fails after stringification,
and the integer id `123` runs through to a success response with
`job_id "123"`. -/
theorem claim_C9_id_stringified_witness :
    run_attempt scenario_exec (fun _ => Option.none) "T0" "T1"
        (.dict [("id", .str "   "), ("type", .str "x"), ("priority", .int 1)]) =
      .error "job.id must be a non-empty string" ∧
    run (legacy_execute_task "TN") (fun _ => Option.none) "T0" "T1" "TC" "TD"
        (.dict [("id", .int 123), ("type", .str "classification"), ("priority", .int 3)]) =
      .dict [("success", .bool true), ("code", .int 200),
             ("data", .dict [("job_id", .str "123"),
                             ("result", .str "Task 123 executed with action classify"),
                             ("metrics", .dict [("duration_ms", .int 0),
                                                ("cpu_usage", .float 0)])]),
             ("created_at", .str "T0"), ("completed_at", .str "TN")] :=
  ⟨(claim_C9_id_stringified scenario_exec (fun _ => Option.none) "T0" "T1"
      [("id", .str "   "), ("type", .str "x"), ("priority", .int 1)]
      (.str "   ") (.str "x") (.int 1) rfl rfl rfl).1 rfl,
   (claim_C9_id_stringified (legacy_execute_task "TN") (fun _ => Option.none) "T0" "T1"
      [("id", .str "   "), ("type", .str "x"), ("priority", .int 1)]
      (.str "   ") (.str "x") (.int 1) rfl rfl rfl).2 "TN" "TC" "TD"⟩

/-- C10: `safe_act` gates id extraction on the truthiness of
`job["id"]`, not its stringified content: every falsy id (None, 0,
False, "") yields `data.job_id = "unknown"`, even though `run`'s own
normalization accepts id `0` (it stringifies to the non-empty `"0"` and
runs through to success). -/
theorem claim_C10_safe_act_truthy
    (kvs : List (String × PyVal)) (v : PyVal) (msg : String)
    (copt : Option String) (n1 n2 : String)
    (hid : pyGet kvs "id" = some v) (hf : pyTruthy v = false) :
    getField (getField (safe_act (.dict kvs) msg copt n1 n2) "data") "job_id" =
      .str "unknown" ∧
    (pyTruthy PyVal.none = false ∧ pyTruthy (.int 0) = false ∧
     pyTruthy (.bool false) = false ∧ pyTruthy (.str "") = false) ∧
    strTrim (pyStr (.int 0)) = "0" ∧
    (∀ loads cA tB sC sD tN, run (legacy_execute_task tN) loads cA tB sC sD
        (.dict [("id", .int 0), ("type", .str "x"), ("priority", .int 1)]) =
      .dict [("success", .bool true), ("code", .int 200),
             ("data", .dict [("job_id", .str "0"),
                             ("result", .str "Task 0 executed with action x"),
                             ("metrics", .dict [("duration_ms", .int 0),
                                                ("cpu_usage", .float 0)])]),
             ("created_at", .str cA), ("completed_at", .str tN)]) := by
  refine ⟨?_, ⟨rfl, rfl, rfl, rfl⟩, rfl, fun loads cA tB sC sD tN => rfl⟩
  have h1 : getField (getField (safe_act (.dict kvs) msg copt n1 n2) "data") "job_id" =
      .str (safe_extract_id (.dict kvs)) := rfl
  rw [h1]
  simp [safe_extract_id, hid, hf]

/-- Witness for C10: the falsy id `0` is reported as `"unknown"` by
`safe_act`, while `run` accepts the same id as `"0"`. -/
theorem claim_C10_safe_act_truthy_witness :
    getField (getField (safe_act (.dict [("id", .int 0)]) "m" (some "T0") "TC" "TD")
        "data") "job_id" = .str "unknown" ∧
    run (legacy_execute_task "TN") (fun _ => Option.none) "T0" "T1" "TC" "TD"
        (.dict [("id", .int 0), ("type", .str "x"), ("priority", .int 1)]) =
      .dict [("success", .bool true), ("code", .int 200),
             ("data", .dict [("job_id", .str "0"),
                             ("result", .str "Task 0 executed with action x"),
                             ("metrics", .dict [("duration_ms", .int 0),
                                                ("cpu_usage", .float 0)])]),
             ("created_at", .str "T0"), ("completed_at", .str "TN")] :=
  ⟨(claim_C10_safe_act_truthy [("id", .int 0)] (.int 0) "m" (some "T0") "TC" "TD"
      rfl rfl).1,
   (claim_C10_safe_act_truthy [("id", .int 0)] (.int 0) "m" (some "T0") "TC" "TD"
      rfl rfl).2.2.2 (fun _ => Option.none) "T0" "T1" "TC" "TD" "TN"⟩
